import Mathlib

/-!
Verification of the particle-field simulation in `script.js` of the
Personal-portfolio repository.

The JavaScript numbers are modelled as rationals (`ℚ`).  The transcendental
primitives the code calls (`Math.sqrt`, `Math.sin`, `Math.cos`, `Math.atan2`)
and the constant `Math.PI` are not rational functions, so they are passed in
as an explicit bundle of function parameters (`MathFns`); theorems that
depend on their actual values take pointwise hypotheses describing them at
the inputs in question (for example `M.sqrt (dx*dx + dy*dy) = d` together
with `M.cos (M.atan2 dy dx) = dx / d`, which hold for the real functions).
Randomness (`Math.random()`, uniform over `[0,1)`) is modelled by explicit
draw records whose components are hypothesised to lie in `[0,1)`.
-/

/-- Bundle of the numeric primitives from JS `Math` used by the script. -/
structure MathFns where
  sqrt : ℚ → ℚ
  sin : ℚ → ℚ
  cos : ℚ → ℚ
  atan2 : ℚ → ℚ → ℚ
  pi : ℚ

/-- A trivial instantiation of the primitives, used to evaluate the model on
concrete inputs where the actual primitive values are irrelevant or are
fixed by hypotheses. -/
def constMath (s c : ℚ) : MathFns :=
  { sqrt := fun _ => s, sin := fun _ => c, cos := fun _ => c
    atan2 := fun _ _ => 0, pi := 0 }

/-- The canvas dimensions (`canvas.width`, `canvas.height`). -/
structure Canvas where
  width : ℚ
  height : ℚ

/-- The `mouse` object: optional pointer coordinates plus the interaction
radius (initialised to 150 in the script and never mutated). -/
structure Mouse where
  x : Option ℚ
  y : Option ℚ
  radius : ℚ

/-- One particle's mutable state: every field of the JS `Particle` class. -/
structure Particle where
  x : ℚ
  y : ℚ
  size : ℚ
  speedY : ℚ
  speedX : ℚ
  opacity : ℚ
  swing : ℚ
  swingSpeed : ℚ
  swingAmplitude : ℚ
  baseSpeedY : ℚ
  baseSpeedX : ℚ
  vx : ℚ
  vy : ℚ
  friction : ℚ
  returnSpeed : ℚ
deriving DecidableEq, Repr

instance : Inhabited Particle :=
  ⟨⟨0, 0, 0, 0, 0, 0, 0, 0, 0, 0, 0, 0, 0, 0, 0⟩⟩

/-- The seven `Math.random()` draws consumed by `Particle.reset()`, in
source order. -/
structure ResetRand where
  rx : ℚ
  ry : ℚ
  rsize : ℚ
  rspeedY : ℚ
  rspeedX : ℚ
  ropacity : ℚ
  rswing : ℚ
  rswingSpeed : ℚ
  rswingAmplitude : ℚ

/-- All components of a `ResetRand` lie in `[0,1)`, as `Math.random()`
guarantees. -/
def ResetRand.InRange (r : ResetRand) : Prop :=
  0 ≤ r.rx ∧ r.rx < 1 ∧ 0 ≤ r.ry ∧ r.ry < 1 ∧ 0 ≤ r.rsize ∧ r.rsize < 1 ∧
  0 ≤ r.rspeedY ∧ r.rspeedY < 1 ∧ 0 ≤ r.rspeedX ∧ r.rspeedX < 1 ∧
  0 ≤ r.ropacity ∧ r.ropacity < 1 ∧ 0 ≤ r.rswing ∧ r.rswing < 1 ∧
  0 ≤ r.rswingSpeed ∧ r.rswingSpeed < 1 ∧
  0 ≤ r.rswingAmplitude ∧ r.rswingAmplitude < 1

instance (r : ResetRand) : Decidable r.InRange := by
  unfold ResetRand.InRange; infer_instance

/-- Model of `Particle.reset()`: reassigns every randomised attribute and zeroes the
interaction velocity; `friction` and `returnSpeed` are untouched (they are
set only by the constructor). -/
def Particle.reset (M : MathFns) (c : Canvas) (r : ResetRand) (p : Particle) :
    Particle :=
  { p with
    x := r.rx * c.width
    y := r.ry * c.height - c.height
    size := r.rsize * 2.5 + 1
    speedY := r.rspeedY * 0.3 + 0.1
    speedX := r.rspeedX * 0.1 - 0.05
    opacity := r.ropacity * 0.5 + 0.3
    swing := r.rswing * 2 * M.pi
    swingSpeed := r.rswingSpeed * 0.005 + 0.002
    swingAmplitude := r.rswingAmplitude * 0.5 + 0.2
    baseSpeedY := r.rspeedY * 0.3 + 0.1
    baseSpeedX := r.rspeedX * 0.1 - 0.05
    vx := 0
    vy := 0 }

/-- Model of `new Particle()`: calls `reset()` on a blank particle, then sets
`friction = 0.98` and `returnSpeed = 0.02` (the constructor's re-assignments
of `baseSpeedY`, `baseSpeedX`, `vx`, `vy` repeat what `reset()` already
did). -/
def Particle.create (M : MathFns) (c : Canvas) (r : ResetRand) : Particle :=
  { Particle.reset M c r default with friction := 0.98, returnSpeed := 0.02 }

/-- First phase of `Particle.update()` (lines 101–119): if the mouse is
present and within `mouse.radius`, accumulate repulsion velocity and bump
opacity (capped at 0.9). -/
def Particle.interact (M : MathFns) (m : Mouse) (p : Particle) : Particle :=
  match m.x, m.y with
  | some mx, some my =>
    let dx := p.x - mx
    let dy := p.y - my
    let distance := M.sqrt (dx * dx + dy * dy)
    if distance < m.radius then
      let force := (m.radius - distance) / m.radius
      let angle := M.atan2 dy dx
      { p with
        vx := p.vx + M.cos angle * force * 2
        vy := p.vy + M.sin angle * force * 2
        opacity := min 0.9 (p.opacity + 0.02) }
    else p
  | _, _ => p

/-- Second phase of `Particle.update()` (lines 121–136): friction, vy
relaxation toward `baseSpeedY`, swing advance, position integration, and
opacity relaxation toward 0.4. -/
def Particle.physics (M : MathFns) (p : Particle) : Particle :=
  let vx := p.vx * p.friction
  let vy0 := p.vy * p.friction
  let vy := vy0 + (p.baseSpeedY - vy0) * p.returnSpeed
  let swing := p.swing + p.swingSpeed
  let x := p.x + vx + p.baseSpeedX + M.sin swing * p.swingAmplitude * 0.1
  let y := p.y + vy
  let opacity := p.opacity + (0.4 - p.opacity) * 0.01
  { p with vx := vx, vy := vy, swing := swing, x := x, y := y,
           opacity := opacity }

/-- Third phase of `Particle.update()` (lines 138–142): when the particle
has fallen below `height + 10`, reset it and force `y = -10`. -/
def Particle.boundary (M : MathFns) (c : Canvas) (r : ResetRand)
    (p : Particle) : Particle :=
  if p.y > c.height + 10 then { Particle.reset M c r p with y := -10 } else p

/-- Fourth phase of `Particle.update()` (lines 144–149): horizontal
wraparound. -/
def Particle.wrap (c : Canvas) (p : Particle) : Particle :=
  { p with
    x := if p.x > c.width + 10 then -10
         else if p.x < -10 then c.width + 10
         else p.x }

/-- Model of `Particle.update()`: the four phases in source order.  The `ResetRand`
draw is consumed only if the boundary reset fires. -/
def Particle.update (M : MathFns) (c : Canvas) (m : Mouse) (r : ResetRand)
    (p : Particle) : Particle :=
  Particle.wrap c (Particle.boundary M c r (Particle.physics M
    (Particle.interact M m p)))

/-- Run a sequence of `update()` calls, each with its own pointer state and
(potential) reset draws. -/
def Particle.run (M : MathFns) (c : Canvas) :
    List (Mouse × ResetRand) → Particle → Particle
  | [], p => p
  | i :: is, p => Particle.run M c is (Particle.update M c i.1 i.2 p)

/-- The randomness consumed when `initParticles` builds one particle: the
draws of the constructor's `reset()` call plus the extra
`Math.random()` used to redistribute `y` across the screen (line 171). -/
structure InitDraws where
  draws : ResetRand
  ryInit : ℚ

/-- Model of `initParticles()` (lines 164–173): discards the previous particle
list, computes `particleCount = Math.floor(width * height / 6000)`, creates
that many fresh particles, and overrides each one's `y` with
`Math.random() * canvas.height`.  The old list is a parameter only to record
that the result does not depend on it. -/
def initParticles (_old : List Particle) (M : MathFns) (c : Canvas)
    (rand : Nat → InitDraws) : List Particle :=
  let particleCount := (⌊c.width * c.height / 6000⌋).toNat
  (List.range particleCount).map fun i =>
    { Particle.create M c (rand i).draws with y := (rand i).ryInit * c.height }

/-- One canvas draw call issued by `drawConnections()`: either a line from
particle `i` to the mouse, or a line between particles `i` and `j`, each
with its stroke alpha. -/
inductive DrawCall where
  | toMouse (i : Nat) (alpha : ℚ)
  | pairLine (i j : Nat) (alpha : ℚ)
deriving DecidableEq, Repr

/-- Model of `drawConnections()` (lines 176–215), as the list of draw calls it
issues, in order.  If either mouse coordinate is null nothing is drawn.
Otherwise for each particle `i` within `mouse.radius * 1.5` of the mouse a
line to the mouse is drawn, and, nested under that same condition, a line
to each later particle `j` at pairwise distance below 80. -/
def drawConnections (M : MathFns) (ps : List Particle) (m : Mouse) :
    List DrawCall :=
  match m.x, m.y with
  | some mx, some my =>
    (List.range ps.length).flatMap fun i =>
      let a := ps.getD i default
      let dx := a.x - mx
      let dy := a.y - my
      let distance := M.sqrt (dx * dx + dy * dy)
      if distance < m.radius * 1.5 then
        DrawCall.toMouse i ((1 - distance / (m.radius * 1.5)) * 0.15) ::
          (List.range' (i + 1) (ps.length - (i + 1))).filterMap fun j =>
            let b := ps.getD j default
            let dx2 := a.x - b.x
            let dy2 := a.y - b.y
            let distance2 := M.sqrt (dx2 * dx2 + dy2 * dy2)
            if distance2 < 80 then
              some (DrawCall.pairLine i j ((1 - distance2 / 80) * 0.1))
            else none
      else []
  | _, _ => []

/-- Model of the `touchmove` handler (lines 54–59): only when the touch list
is non-empty are the mouse coordinates overwritten, from the first touch. -/
def touchmoveHandler (m : Mouse) (touches : List (ℚ × ℚ)) : Mouse :=
  match touches with
  | [] => m
  | t :: _ => { m with x := some t.1, y := some t.2 }

/-- Model of the debounced resize handler (lines 238–245) under standard
timer semantics.  Each resize event cancels the pending timeout
(`clearTimeout`) and schedules the rebuild (`resizeCanvas(); initParticles()`)
200ms later (`setTimeout`).  Hence a scheduled rebuild executes exactly when
no later event arrives before its deadline.  Given the event times in
chronological order, this returns the times at which a rebuild executes. -/
def debounceFireTimes : List ℚ → List ℚ
  | [] => []
  | [t] => [t + 200]
  | t :: t' :: rest =>
    (if t + 200 ≤ t' then [t + 200] else []) ++ debounceFireTimes (t' :: rest)

/-- The spec's particle invariant: opacity within `[0, 0.9]` and `x` within
`[-10, width + 10]`. -/
def Particle.Invariant (c : Canvas) (p : Particle) : Prop :=
  0 ≤ p.opacity ∧ p.opacity ≤ 0.9 ∧ -10 ≤ p.x ∧ p.x ≤ c.width + 10

/-! ### Concrete instances used to evaluate the model -/

/-- A concrete particle whose `vy` sits just above its `baseSpeedY`
(`baseSpeedY = 0.1` is itself a value `reset()` can produce). -/
def overshootParticle : Particle :=
  { (default : Particle) with
      y := 0, vy := 0.101, baseSpeedY := 0.1, friction := 0.98,
      returnSpeed := 0.02, opacity := 0.4 }

/-- Concrete mid-range reset draws. -/
def resetDrawMid : ResetRand := ⟨1/2, 1/2, 1/2, 1/2, 1/2, 1/2, 1/2, 1/2, 1/2⟩

/-- A particle that has fallen far below the bottom edge. -/
def fallenParticle : Particle := { (default : Particle) with y := 10000 }

/-- The result of one `update()` on the fallen particle. -/
def updatedFallen : Particle :=
  Particle.update (constMath 0 0) ⟨100, 100⟩ ⟨none, none, 150⟩ resetDrawMid
    fallenParticle

/-- A primitive bundle matching the real functions at the single point the
C4 witness probes: distance 50 from the origin to `(30, 40)`, with
`(cos, sin)` of the angle equal to `(3/5, 4/5)`. -/
def pointerMath : MathFns :=
  { sqrt := fun _ => 50, sin := fun _ => 4 / 5, cos := fun _ => 3 / 5
    atan2 := fun _ _ => 0, pi := 0 }

/-- A particle at distance 50 from the pointer at the origin. -/
def probeParticle : Particle := { (default : Particle) with x := 30, y := 40 }

/-- Concrete per-particle randomness for field initialization. -/
def initDrawsMid : Nat → InitDraws := fun _ => ⟨⟨0, 0, 0, 0, 0, 0, 0, 0, 0⟩, 1 / 2⟩

/-- A two-particle field. -/
def twoParticles : List Particle := [default, default]

/-! ### Projection lemmas for the update phases -/

lemma Particle.physics_opacity (M : MathFns) (p : Particle) :
    (Particle.physics M p).opacity = p.opacity + (0.4 - p.opacity) * 0.01 := rfl

lemma Particle.physics_y (M : MathFns) (p : Particle) :
    (Particle.physics M p).y =
      p.y + (p.vy * p.friction + (p.baseSpeedY - p.vy * p.friction) * p.returnSpeed) := rfl

lemma Particle.wrap_opacity (c : Canvas) (p : Particle) :
    (Particle.wrap c p).opacity = p.opacity := rfl

lemma Particle.boundary_eq (M : MathFns) (c : Canvas) (r : ResetRand)
    (p : Particle) :
    Particle.boundary M c r p =
      if p.y > c.height + 10 then { Particle.reset M c r p with y := -10 }
      else p := rfl

lemma Particle.update_eq (M : MathFns) (c : Canvas) (m : Mouse) (r : ResetRand)
    (p : Particle) :
    Particle.update M c m r p =
      Particle.wrap c (Particle.boundary M c r (Particle.physics M
        (Particle.interact M m p))) := rfl

lemma Particle.wrap_x (c : Canvas) (p : Particle) :
    (Particle.wrap c p).x =
      if p.x > c.width + 10 then -10
      else if p.x < -10 then c.width + 10
      else p.x := rfl

lemma Particle.wrap_x_mem (c : Canvas) (hw : 0 ≤ c.width) (p : Particle) :
    -10 ≤ (Particle.wrap c p).x ∧ (Particle.wrap c p).x ≤ c.width + 10 := by
  rw [Particle.wrap_x]
  split_ifs with h1 h2 <;> constructor <;> linarith

lemma Particle.interact_opacity_mem (M : MathFns) (m : Mouse) (p : Particle)
    (h0 : 0 ≤ p.opacity) (h9 : p.opacity ≤ 0.9) :
    0 ≤ (Particle.interact M m p).opacity ∧
      (Particle.interact M m p).opacity ≤ 0.9 := by
  obtain ⟨mx, my, rad⟩ := m
  cases mx <;> cases my <;> dsimp only [Particle.interact] <;>
    first
      | exact ⟨h0, h9⟩
      | (split_ifs
         · exact ⟨le_min (by norm_num) (by linarith), min_le_left _ _⟩
         · exact ⟨h0, h9⟩)

/-- Single-step preservation of the spec invariant by `update()`. -/
lemma Particle.update_invariant_step (M : MathFns) (c : Canvas) (m : Mouse)
    (r : ResetRand) (hw : 0 ≤ c.width) (hr : r.InRange) (p : Particle)
    (hp : p.Invariant c) : (Particle.update M c m r p).Invariant c := by
  obtain ⟨ho0, ho9, _, _⟩ := hp
  have h1 := Particle.interact_opacity_mem M m p ho0 ho9
  have h2 : 0 ≤ (Particle.physics M (Particle.interact M m p)).opacity ∧
      (Particle.physics M (Particle.interact M m p)).opacity ≤ 0.9 := by
    rw [Particle.physics_opacity]
    exact ⟨by linarith [h1.1, h1.2], by linarith [h1.1, h1.2]⟩
  have h3 : 0 ≤ (Particle.boundary M c r (Particle.physics M
        (Particle.interact M m p))).opacity ∧
      (Particle.boundary M c r (Particle.physics M
        (Particle.interact M m p))).opacity ≤ 0.9 := by
    rw [Particle.boundary_eq]
    split_ifs
    · obtain ⟨_, _, _, _, _, _, _, _, _, _, hop0, hop1, _⟩ := hr
      show 0 ≤ r.ropacity * 0.5 + 0.3 ∧ r.ropacity * 0.5 + 0.3 ≤ 0.9
      constructor <;> linarith
    · exact h2
  rw [Particle.update_eq]
  refine ⟨?_, ?_, ?_, ?_⟩
  · rw [Particle.wrap_opacity]; exact h3.1
  · rw [Particle.wrap_opacity]; exact h3.2
  · exact (Particle.wrap_x_mem c hw _).1
  · exact (Particle.wrap_x_mem c hw _).2

/-- C1.  For every particle and any number of consecutive `update()` calls,
with any sequence of pointer positions (and any `Math.random()` draws in
`[0,1)` for the resets they may trigger), the particle's opacity stays in
`[0, 0.9]` and its `x` coordinate, at the end of each `update()`, stays in
`[-10, canvas.width + 10]`. -/
theorem particle_opacity_x_invariant (M : MathFns) (c : Canvas)
    (hw : 0 ≤ c.width) (inputs : List (Mouse × ResetRand))
    (hr : ∀ i ∈ inputs, i.2.InRange) (p : Particle) (hp : p.Invariant c) :
    (Particle.run M c inputs p).Invariant c := by
  induction inputs generalizing p with
  | nil => exact hp
  | cons i is ih =>
    exact ih (fun j hj => hr j (List.mem_cons_of_mem _ hj)) _
      (Particle.update_invariant_step M c i.1 i.2 hw
        (hr i (List.mem_cons_self _ _)) p hp)

/-- Witness for C1 at a concrete particle, canvas and input sequence. -/
theorem particle_opacity_x_invariant_witness :
    (Particle.run (constMath 0 0) ⟨200, 100⟩
      [(⟨none, none, 150⟩, ⟨0, 0, 0, 0, 0, 0, 0, 0, 0⟩)]
      { (default : Particle) with opacity := 0.5, x := 5 }).Invariant
        ⟨200, 100⟩ := by
  refine particle_opacity_x_invariant _ _ (by norm_num) _ ?_ _ ?_
  · intro i hi
    rw [List.mem_singleton] at hi
    subst hi
    show ResetRand.InRange _
    unfold ResetRand.InRange
    norm_num
  · show Particle.Invariant _ _
    unfold Particle.Invariant
    norm_num

/-! ### C2: relaxation of `vy` and opacity with the pointer cleared

With the pointer cleared, one `update()` maps
`vy ↦ 0.98 * vy + (baseSpeedY - 0.98 * vy) * 0.02 = 0.9604 * vy + 0.02 * baseSpeedY`
(friction is applied before the relaxation), whose fixed point is
`(50/99) * baseSpeedY`, not `baseSpeedY` itself: a `vy` slightly above
`baseSpeedY` drops below it in a single step. -/

/-- Counterexample to C2 as stated: with the pointer cleared, a particle with
`vy` above `baseSpeedY` ends the very next `update()` with `vy` strictly
below `baseSpeedY` (which the update leaves unchanged) — the approach to
`baseSpeedY` overshoots past it in a single step. -/
theorem vy_overshoots_past_baseSpeedY :
    overshootParticle.baseSpeedY < overshootParticle.vy ∧
    (Particle.update (constMath 0 0) ⟨1000, 1000⟩ ⟨none, none, 150⟩
        ⟨0, 0, 0, 0, 0, 0, 0, 0, 0⟩ overshootParticle).baseSpeedY =
      overshootParticle.baseSpeedY ∧
    (Particle.update (constMath 0 0) ⟨1000, 1000⟩ ⟨none, none, 150⟩
        ⟨0, 0, 0, 0, 0, 0, 0, 0, 0⟩ overshootParticle).vy <
      overshootParticle.baseSpeedY := by
  norm_num [overshootParticle, Particle.update, Particle.interact,
    Particle.physics, Particle.boundary, Particle.wrap, constMath, default,
    instInhabitedParticle]

/-- C2 (amended).  With the Pointer Tracker cleared and the constructor's
`friction = 0.98`, `returnSpeed = 0.02`, an `update()` that does not trigger
the bottom reset moves `vy` exponentially toward `(50/99) * baseSpeedY`
(the fixed point of `vy ↦ 0.9604 * vy + 0.02 * baseSpeedY`) and opacity
exponentially toward `0.4`, each monotonically and without overshooting its
target in a single step. -/
theorem vy_opacity_relaxation (M : MathFns) (c : Canvas) (m : Mouse)
    (r : ResetRand) (p : Particle) (hmx : m.x = none) (hmy : m.y = none)
    (hf : p.friction = 0.98) (hrs : p.returnSpeed = 0.02)
    (hno : (Particle.physics M p).y ≤ c.height + 10) :
    (Particle.update M c m r p).vy - 50 / 99 * p.baseSpeedY
        = 0.9604 * (p.vy - 50 / 99 * p.baseSpeedY) ∧
    (Particle.update M c m r p).opacity - 0.4 = 0.99 * (p.opacity - 0.4) ∧
    min p.vy (50 / 99 * p.baseSpeedY) ≤ (Particle.update M c m r p).vy ∧
    (Particle.update M c m r p).vy ≤ max p.vy (50 / 99 * p.baseSpeedY) ∧
    min p.opacity 0.4 ≤ (Particle.update M c m r p).opacity ∧
    (Particle.update M c m r p).opacity ≤ max p.opacity 0.4 := by
  obtain ⟨mx, my, rad⟩ := m
  dsimp only at hmx hmy
  subst hmx hmy
  have hi : Particle.interact M ⟨none, none, rad⟩ p = p := rfl
  have hupd : Particle.update M c ⟨none, none, rad⟩ r p =
      Particle.wrap c (Particle.physics M p) := by
    rw [Particle.update_eq, hi, Particle.boundary_eq, if_neg (not_lt.mpr hno)]
  have hvy : (Particle.update M c ⟨none, none, rad⟩ r p).vy =
      p.vy * 0.98 + (p.baseSpeedY - p.vy * 0.98) * 0.02 := by
    rw [hupd]
    show (Particle.physics M p).vy = _
    rw [show (Particle.physics M p).vy =
        p.vy * p.friction + (p.baseSpeedY - p.vy * p.friction) * p.returnSpeed
      from rfl, hf, hrs]
  have hop : (Particle.update M c ⟨none, none, rad⟩ r p).opacity =
      p.opacity + (0.4 - p.opacity) * 0.01 := by
    rw [hupd, Particle.wrap_opacity, Particle.physics_opacity]
  refine ⟨by rw [hvy]; ring, by rw [hop]; ring, ?_, ?_, ?_, ?_⟩
  · rcases le_total p.vy (50 / 99 * p.baseSpeedY) with h | h
    · rw [min_eq_left h]; linarith [hvy]
    · rw [min_eq_right h]; linarith [hvy]
  · rcases le_total p.vy (50 / 99 * p.baseSpeedY) with h | h
    · rw [max_eq_right h]; linarith [hvy]
    · rw [max_eq_left h]; linarith [hvy]
  · rcases le_total p.opacity (0.4 : ℚ) with h | h
    · rw [min_eq_left h]; linarith [hop]
    · rw [min_eq_right h]; linarith [hop]
  · rcases le_total p.opacity (0.4 : ℚ) with h | h
    · rw [max_eq_right h]; linarith [hop]
    · rw [max_eq_left h]; linarith [hop]

/-- Witness for the amended C2 at a concrete particle. -/
theorem vy_opacity_relaxation_witness :
    (Particle.update (constMath 0 0) ⟨100, 100⟩ ⟨none, none, 150⟩
        ⟨0, 0, 0, 0, 0, 0, 0, 0, 0⟩ overshootParticle).vy -
          50 / 99 * overshootParticle.baseSpeedY
        = 0.9604 * (overshootParticle.vy -
          50 / 99 * overshootParticle.baseSpeedY) ∧
    (Particle.update (constMath 0 0) ⟨100, 100⟩ ⟨none, none, 150⟩
        ⟨0, 0, 0, 0, 0, 0, 0, 0, 0⟩ overshootParticle).opacity - 0.4
        = 0.99 * (overshootParticle.opacity - 0.4) ∧
    min overshootParticle.vy (50 / 99 * overshootParticle.baseSpeedY) ≤
      (Particle.update (constMath 0 0) ⟨100, 100⟩ ⟨none, none, 150⟩
        ⟨0, 0, 0, 0, 0, 0, 0, 0, 0⟩ overshootParticle).vy ∧
    (Particle.update (constMath 0 0) ⟨100, 100⟩ ⟨none, none, 150⟩
        ⟨0, 0, 0, 0, 0, 0, 0, 0, 0⟩ overshootParticle).vy ≤
      max overshootParticle.vy (50 / 99 * overshootParticle.baseSpeedY) ∧
    min overshootParticle.opacity 0.4 ≤
      (Particle.update (constMath 0 0) ⟨100, 100⟩ ⟨none, none, 150⟩
        ⟨0, 0, 0, 0, 0, 0, 0, 0, 0⟩ overshootParticle).opacity ∧
    (Particle.update (constMath 0 0) ⟨100, 100⟩ ⟨none, none, 150⟩
        ⟨0, 0, 0, 0, 0, 0, 0, 0, 0⟩ overshootParticle).opacity ≤
      max overshootParticle.opacity 0.4 :=
  vy_opacity_relaxation (constMath 0 0) ⟨100, 100⟩ ⟨none, none, 150⟩
    ⟨0, 0, 0, 0, 0, 0, 0, 0, 0⟩ overshootParticle rfl rfl rfl rfl
    (by norm_num [overshootParticle, Particle.physics_y, default,
      instInhabitedParticle])

/-! ### C3: reset semantics at the bottom boundary -/

/-- C3.  When the `y` produced by position integration exceeds
`canvas.height + 10`, that same `update()` ends with `y = -10`, with `size`,
`speedY`, `speedX`, `opacity`, `swing`, `swingSpeed` and `swingAmplitude`
freshly re-randomised within their `reset()` ranges, and with the
interaction velocity zeroed; the randomised `y` from `reset()` is discarded
in favour of `-10`. -/
theorem bottom_reset_semantics (M : MathFns) (c : Canvas) (m : Mouse)
    (r : ResetRand) (hr : r.InRange) (p q : Particle)
    (hy : (Particle.physics M (Particle.interact M m p)).y > c.height + 10)
    (hq : q = Particle.update M c m r p) :
    q.y = -10 ∧
    q.size = r.rsize * 2.5 + 1 ∧ 1 ≤ q.size ∧ q.size < 3.5 ∧
    q.speedY = r.rspeedY * 0.3 + 0.1 ∧ 0.1 ≤ q.speedY ∧ q.speedY < 0.4 ∧
    q.speedX = r.rspeedX * 0.1 - 0.05 ∧ -0.05 ≤ q.speedX ∧ q.speedX < 0.05 ∧
    q.opacity = r.ropacity * 0.5 + 0.3 ∧ 0.3 ≤ q.opacity ∧ q.opacity < 0.8 ∧
    q.swing = r.rswing * 2 * M.pi ∧
    q.swingSpeed = r.rswingSpeed * 0.005 + 0.002 ∧
      0.002 ≤ q.swingSpeed ∧ q.swingSpeed < 0.007 ∧
    q.swingAmplitude = r.rswingAmplitude * 0.5 + 0.2 ∧
      0.2 ≤ q.swingAmplitude ∧ q.swingAmplitude < 0.7 ∧
    q.vx = 0 ∧ q.vy = 0 := by
  subst hq
  rw [Particle.update_eq, Particle.boundary_eq, if_pos hy]
  obtain ⟨hrx0, hrx1, hry0, hry1, hsz0, hsz1, hsy0, hsy1, hsx0, hsx1,
    hop0, hop1, hsw0, hsw1, hss0, hss1, hsa0, hsa1⟩ := hr
  refine ⟨rfl, rfl, ?_, ?_, rfl, ?_, ?_, rfl, ?_, ?_, rfl, ?_, ?_, rfl, rfl,
    ?_, ?_, rfl, ?_, ?_, rfl, rfl⟩
  · show (1 : ℚ) ≤ r.rsize * 2.5 + 1
    linarith
  · show r.rsize * 2.5 + 1 < (3.5 : ℚ)
    linarith
  · show (0.1 : ℚ) ≤ r.rspeedY * 0.3 + 0.1
    linarith
  · show r.rspeedY * 0.3 + 0.1 < (0.4 : ℚ)
    linarith
  · show (-0.05 : ℚ) ≤ r.rspeedX * 0.1 - 0.05
    linarith
  · show r.rspeedX * 0.1 - 0.05 < (0.05 : ℚ)
    linarith
  · show (0.3 : ℚ) ≤ r.ropacity * 0.5 + 0.3
    linarith
  · show r.ropacity * 0.5 + 0.3 < (0.8 : ℚ)
    linarith
  · show (0.002 : ℚ) ≤ r.rswingSpeed * 0.005 + 0.002
    linarith
  · show r.rswingSpeed * 0.005 + 0.002 < (0.007 : ℚ)
    linarith
  · show (0.2 : ℚ) ≤ r.rswingAmplitude * 0.5 + 0.2
    linarith
  · show r.rswingAmplitude * 0.5 + 0.2 < (0.7 : ℚ)
    linarith

/-- Witness for C3 at a concrete fallen particle. -/
theorem bottom_reset_semantics_witness :
    updatedFallen.y = -10 ∧
    updatedFallen.size = resetDrawMid.rsize * 2.5 + 1 ∧
      1 ≤ updatedFallen.size ∧ updatedFallen.size < 3.5 ∧
    updatedFallen.speedY = resetDrawMid.rspeedY * 0.3 + 0.1 ∧
      0.1 ≤ updatedFallen.speedY ∧ updatedFallen.speedY < 0.4 ∧
    updatedFallen.speedX = resetDrawMid.rspeedX * 0.1 - 0.05 ∧
      -0.05 ≤ updatedFallen.speedX ∧ updatedFallen.speedX < 0.05 ∧
    updatedFallen.opacity = resetDrawMid.ropacity * 0.5 + 0.3 ∧
      0.3 ≤ updatedFallen.opacity ∧ updatedFallen.opacity < 0.8 ∧
    updatedFallen.swing = resetDrawMid.rswing * 2 * (constMath 0 0).pi ∧
    updatedFallen.swingSpeed = resetDrawMid.rswingSpeed * 0.005 + 0.002 ∧
      0.002 ≤ updatedFallen.swingSpeed ∧ updatedFallen.swingSpeed < 0.007 ∧
    updatedFallen.swingAmplitude = resetDrawMid.rswingAmplitude * 0.5 + 0.2 ∧
      0.2 ≤ updatedFallen.swingAmplitude ∧
      updatedFallen.swingAmplitude < 0.7 ∧
    updatedFallen.vx = 0 ∧ updatedFallen.vy = 0 :=
  bottom_reset_semantics (constMath 0 0) ⟨100, 100⟩ ⟨none, none, 150⟩
    resetDrawMid (by unfold ResetRand.InRange resetDrawMid; norm_num)
    fallenParticle updatedFallen
    (by norm_num [Particle.physics_y, Particle.interact, fallenParticle,
      default, instInhabitedParticle])
    rfl

/-! ### C4: the repulsion force

The hypotheses `hcos`/`hsin` record the defining property of the real
`cos ∘ atan2` and `sin ∘ atan2` at the point in question: the unit vector
from the pointer toward the particle. -/

/-- C4.  With the pointer present and the particle at distance `0 < d < 150`
from it, the repulsion force magnitude is `(150 - d) / 150 ∈ (0, 1]`, and
the interaction velocity is incremented by `(cos, sin)(atan2 dy dx) * force
* 2`, i.e. by the strictly positive multiple `2 * force / d` of the vector
`(dx, dy)` pointing from the pointer toward the particle. -/
theorem repulsion_force_formula (M : MathFns) (m : Mouse) (p : Particle)
    (mx my d : ℚ) (hmx : m.x = some mx) (hmy : m.y = some my)
    (hrad : m.radius = 150)
    (hd : M.sqrt ((p.x - mx) * (p.x - mx) + (p.y - my) * (p.y - my)) = d)
    (hd0 : 0 < d) (hd150 : d < 150)
    (hcos : M.cos (M.atan2 (p.y - my) (p.x - mx)) = (p.x - mx) / d)
    (hsin : M.sin (M.atan2 (p.y - my) (p.x - mx)) = (p.y - my) / d) :
    0 < (150 - d) / 150 ∧ (150 - d) / 150 ≤ 1 ∧
    (Particle.interact M m p).vx =
      p.vx + 2 * ((150 - d) / 150) / d * (p.x - mx) ∧
    (Particle.interact M m p).vy =
      p.vy + 2 * ((150 - d) / 150) / d * (p.y - my) ∧
    0 < 2 * ((150 - d) / 150) / d := by
  obtain ⟨mx', my', rad⟩ := m
  dsimp only at hmx hmy hrad
  subst hmx hmy hrad
  have hforce : (0 : ℚ) < (150 - d) / 150 := by
    apply div_pos <;> [linarith; norm_num]
  refine ⟨hforce, ?_, ?_, ?_, ?_⟩
  · rw [div_le_one (by norm_num : (0 : ℚ) < 150)]
    linarith
  · dsimp only [Particle.interact]
    simp only [hd]
    rw [if_pos hd150]
    dsimp only
    rw [hcos]
    ring
  · dsimp only [Particle.interact]
    simp only [hd]
    rw [if_pos hd150]
    dsimp only
    rw [hsin]
    ring
  · exact div_pos (by linarith) hd0

/-- Witness for C4: at distance `d = 50` the force is `(150 - 50) / 150 =
2/3`, and the velocity increment is the positive multiple `2 * force / 50`
of `(30, 40)`. -/
theorem repulsion_force_formula_witness :
    (150 - 50 : ℚ) / 150 = 2 / 3 ∧
    (0 < (150 - 50 : ℚ) / 150 ∧ (150 - 50 : ℚ) / 150 ≤ 1 ∧
    (Particle.interact pointerMath ⟨some 0, some 0, 150⟩ probeParticle).vx =
      probeParticle.vx + 2 * ((150 - 50) / 150) / 50 * (probeParticle.x - 0) ∧
    (Particle.interact pointerMath ⟨some 0, some 0, 150⟩ probeParticle).vy =
      probeParticle.vy + 2 * ((150 - 50) / 150) / 50 * (probeParticle.y - 0) ∧
    0 < 2 * ((150 - 50 : ℚ) / 150) / 50) :=
  ⟨by norm_num,
   repulsion_force_formula pointerMath ⟨some 0, some 0, 150⟩ probeParticle
     0 0 50 rfl rfl rfl
     (by norm_num [pointerMath, probeParticle, default, instInhabitedParticle])
     (by norm_num) (by norm_num)
     (by norm_num [pointerMath, probeParticle, default, instInhabitedParticle])
     (by norm_num [pointerMath, probeParticle, default, instInhabitedParticle])⟩

/-! ### C5: field initialization -/

/-- C5.  `initParticles()` creates exactly `floor(width * height / 6000)`
particles, does not depend on the previously existing particle list, and
overrides each particle's `y` with a fresh uniform draw over
`[0, height)`. -/
theorem field_initialization (M : MathFns) (c : Canvas) (hw : 0 ≤ c.width)
    (hh : 0 < c.height) (rand : Nat → InitDraws)
    (hr : ∀ i, 0 ≤ (rand i).ryInit ∧ (rand i).ryInit < 1)
    (old old' : List Particle) :
    ((initParticles old M c rand).length : ℤ) = ⌊c.width * c.height / 6000⌋ ∧
    initParticles old M c rand = initParticles old' M c rand ∧
    ∀ i, ∀ h : i < (initParticles old M c rand).length,
      (initParticles old M c rand)[i].y = (rand i).ryInit * c.height ∧
      0 ≤ (initParticles old M c rand)[i].y ∧
      (initParticles old M c rand)[i].y < c.height := by
  have h0 : (0 : ℤ) ≤ ⌊c.width * c.height / 6000⌋ :=
    Int.floor_nonneg.mpr (div_nonneg (mul_nonneg hw hh.le) (by norm_num))
  refine ⟨?_, rfl, ?_⟩
  · simp [initParticles, Int.toNat_of_nonneg h0]
  · intro i h
    have hi : i < (⌊c.width * c.height / 6000⌋).toNat := by
      simpa [initParticles] using h
    have hget : (initParticles old M c rand)[i] =
        { Particle.create M c (rand i).draws with
            y := (rand i).ryInit * c.height } := by
      simp [initParticles]
    rw [hget]
    obtain ⟨hr0, hr1⟩ := hr i
    exact ⟨rfl, mul_nonneg hr0 hh.le, (mul_lt_iff_lt_one_left hh).mpr hr1⟩

/-- Witness for C5 on an 800×600 viewport: the count is
`floor(480000 / 6000) = 80`, independent of the discarded previous list. -/
theorem field_initialization_witness :
    (⌊(800 * 600 : ℚ) / 6000⌋ = 80) ∧
    (((initParticles [] (constMath 0 0) ⟨800, 600⟩ initDrawsMid).length : ℤ)
        = ⌊(800 : ℚ) * 600 / 6000⌋ ∧
    initParticles [] (constMath 0 0) ⟨800, 600⟩ initDrawsMid =
      initParticles [default] (constMath 0 0) ⟨800, 600⟩ initDrawsMid ∧
    ∀ i, ∀ h : i < (initParticles [] (constMath 0 0) ⟨800, 600⟩
        initDrawsMid).length,
      (initParticles [] (constMath 0 0) ⟨800, 600⟩ initDrawsMid)[i].y =
        (initDrawsMid i).ryInit * 600 ∧
      0 ≤ (initParticles [] (constMath 0 0) ⟨800, 600⟩ initDrawsMid)[i].y ∧
      (initParticles [] (constMath 0 0) ⟨800, 600⟩ initDrawsMid)[i].y < 600) :=
  ⟨by norm_num,
   field_initialization (constMath 0 0) ⟨800, 600⟩ (by norm_num) (by norm_num)
     initDrawsMid (fun i => by norm_num [initDrawsMid]) [] [default]⟩

/-! ### C6: which particle-to-particle lines are drawn -/

lemma mem_range'_iff {s n x : Nat} :
    x ∈ List.range' s n ↔ s ≤ x ∧ x < s + n := by
  rw [List.mem_range']
  constructor
  · rintro ⟨k, hk, rfl⟩
    omega
  · rintro ⟨h1, h2⟩
    exact ⟨x - s, by omega, by omega⟩

/-- C6.  With a pointer present, a particle-to-particle line between indices
`i` and `j` with alpha `a` is drawn if and only if `i < j`, `j` is a valid
index, particle `i` is within 225 (`= 150 * 1.5`) of the pointer, the
pairwise distance is below 80, and `a = (1 - pairwiseDistance / 80) * 0.1`.
Particle `j`'s own distance to the pointer is not a condition. -/
theorem pair_line_characterization (M : MathFns) (ps : List Particle)
    (m : Mouse) (mx my : ℚ) (hmx : m.x = some mx) (hmy : m.y = some my)
    (hrad : m.radius = 150) (i j : Nat) (a : ℚ) :
    DrawCall.pairLine i j a ∈ drawConnections M ps m ↔
      (i < j ∧ j < ps.length ∧
       M.sqrt (((ps.getD i default).x - mx) * ((ps.getD i default).x - mx) +
           ((ps.getD i default).y - my) * ((ps.getD i default).y - my))
         < 225 ∧
       M.sqrt
           (((ps.getD i default).x - (ps.getD j default).x) *
               ((ps.getD i default).x - (ps.getD j default).x) +
             ((ps.getD i default).y - (ps.getD j default).y) *
               ((ps.getD i default).y - (ps.getD j default).y)) < 80 ∧
       a = (1 - M.sqrt
           (((ps.getD i default).x - (ps.getD j default).x) *
               ((ps.getD i default).x - (ps.getD j default).x) +
             ((ps.getD i default).y - (ps.getD j default).y) *
               ((ps.getD i default).y - (ps.getD j default).y)) / 80)
         * 0.1) := by
  obtain ⟨mx', my', rad⟩ := m
  dsimp only at hmx hmy hrad
  subst hmx hmy hrad
  have h15 : (150 : ℚ) * 1.5 = 225 := by norm_num
  dsimp only [drawConnections]
  rw [List.mem_flatMap]
  constructor
  · rintro ⟨i', hi', hmem⟩
    rw [List.mem_range] at hi'
    rw [h15] at hmem
    by_cases hcond :
        M.sqrt (((ps.getD i' default).x - mx) * ((ps.getD i' default).x - mx)
          + ((ps.getD i' default).y - my) * ((ps.getD i' default).y - my))
          < 225
    · rw [if_pos hcond, List.mem_cons] at hmem
      rcases hmem with heq | hmem
      · exact absurd heq (by simp)
      · rw [List.mem_filterMap] at hmem
        obtain ⟨j', hj', heq⟩ := hmem
        rw [mem_range'_iff] at hj'
        by_cases hpair :
            M.sqrt (((ps.getD i' default).x - (ps.getD j' default).x) *
                ((ps.getD i' default).x - (ps.getD j' default).x) +
              ((ps.getD i' default).y - (ps.getD j' default).y) *
                ((ps.getD i' default).y - (ps.getD j' default).y)) < 80
        · rw [if_pos hpair, Option.some_inj] at heq
          obtain ⟨rfl, rfl, rfl⟩ := DrawCall.pairLine.inj heq
          exact ⟨by omega, by omega, hcond, hpair, rfl⟩
        · rw [if_neg hpair] at heq
          exact absurd heq (by simp)
    · rw [if_neg hcond] at hmem
      exact absurd hmem (List.not_mem_nil _)
  · rintro ⟨hij, hj, hmouse, hpair, rfl⟩
    refine ⟨i, List.mem_range.mpr (lt_trans hij hj), ?_⟩
    dsimp only
    rw [h15, if_pos hmouse]
    refine List.mem_cons_of_mem _ ?_
    rw [List.mem_filterMap]
    refine ⟨j, mem_range'_iff.mpr ⟨by omega, by omega⟩, ?_⟩
    rw [if_pos hpair]

/-- Witness for C6 on a concrete two-particle field (both particles at the
origin, pointer present at the origin). -/
theorem pair_line_characterization_witness :
    DrawCall.pairLine 0 1 0.1 ∈
        drawConnections (constMath 0 0) twoParticles ⟨some 0, some 0, 150⟩ ↔
      (0 < 1 ∧ 1 < 2 ∧ (0 : ℚ) < 225 ∧ (0 : ℚ) < 80 ∧
       (0.1 : ℚ) = (1 - 0 / 80) * 0.1) :=
  pair_line_characterization (constMath 0 0) twoParticles
    ⟨some 0, some 0, 150⟩ 0 0 rfl rfl rfl 0 1 0.1

/-! ### C7: no pointer, no draw calls -/

/-- C7.  When either mouse coordinate is null, `drawConnections()` issues no
draw calls at all. -/
theorem no_pointer_no_draw_calls (M : MathFns) (ps : List Particle)
    (m : Mouse) (h : m.x = none ∨ m.y = none) :
    drawConnections M ps m = [] := by
  obtain ⟨mx, my, rad⟩ := m
  rcases h with h | h
  · dsimp only at h
    subst h
    cases my <;> rfl
  · dsimp only at h
    subst h
    cases mx <;> rfl

/-- Witness for C7 with a cleared `mouse.x` (and a stale `mouse.y`). -/
theorem no_pointer_no_draw_calls_witness :
    drawConnections (constMath 0 0) [default] ⟨none, some 5, 150⟩ = [] :=
  no_pointer_no_draw_calls (constMath 0 0) [default] ⟨none, some 5, 150⟩
    (Or.inl rfl)

/-! ### C8: the debounced resize handler -/

/-- C8.  Five resize events inside one 200ms window produce exactly one
rebuild (one `resizeCanvas(); initParticles()` execution), 200ms after the
last event: each earlier pending timeout is cancelled by the next event. -/
theorem resize_debounce_coalesces (t1 t2 t3 t4 t5 : ℚ)
    (h12 : t1 ≤ t2) (h23 : t2 ≤ t3) (h34 : t3 ≤ t4) (h45 : t4 ≤ t5)
    (hwin : t5 < t1 + 200) :
    debounceFireTimes [t1, t2, t3, t4, t5] = [t5 + 200] := by
  have n1 : ¬ t1 + 200 ≤ t2 := by linarith
  have n2 : ¬ t2 + 200 ≤ t3 := by linarith
  have n3 : ¬ t3 + 200 ≤ t4 := by linarith
  have n4 : ¬ t4 + 200 ≤ t5 := by linarith
  simp only [debounceFireTimes, if_neg n1, if_neg n2, if_neg n3, if_neg n4,
    List.nil_append]

/-- Witness for C8: events at 0, 10, 20, 30, 40ms rebuild once, at 240ms. -/
theorem resize_debounce_coalesces_witness :
    debounceFireTimes [0, 10, 20, 30, 40] = [240] := by
  have h := resize_debounce_coalesces 0 10 20 30 40 (by norm_num)
    (by norm_num) (by norm_num) (by norm_num) (by norm_num)
  norm_num at h
  exact h

/-! ### C9: fields `update()` leaves alone when no reset fires -/

lemma Particle.interact_preserves (M : MathFns) (m : Mouse) (p : Particle) :
    (Particle.interact M m p).x = p.x ∧ (Particle.interact M m p).y = p.y ∧
    (Particle.interact M m p).size = p.size ∧
    (Particle.interact M m p).speedX = p.speedX ∧
    (Particle.interact M m p).speedY = p.speedY ∧
    (Particle.interact M m p).swing = p.swing ∧
    (Particle.interact M m p).swingSpeed = p.swingSpeed ∧
    (Particle.interact M m p).swingAmplitude = p.swingAmplitude ∧
    (Particle.interact M m p).baseSpeedX = p.baseSpeedX ∧
    (Particle.interact M m p).baseSpeedY = p.baseSpeedY ∧
    (Particle.interact M m p).friction = p.friction ∧
    (Particle.interact M m p).returnSpeed = p.returnSpeed := by
  obtain ⟨mx, my, rad⟩ := m
  cases mx <;> cases my <;> dsimp only [Particle.interact] <;>
    first
      | exact ⟨rfl, rfl, rfl, rfl, rfl, rfl, rfl, rfl, rfl, rfl, rfl, rfl⟩
      | (split_ifs <;>
          exact ⟨rfl, rfl, rfl, rfl, rfl, rfl, rfl, rfl, rfl, rfl, rfl, rfl⟩)

/-- C9.  An `update()` whose integrated `y` does not exceed
`canvas.height + 10` (so no reset fires) leaves `size`, `speedX`, `speedY`,
`swingSpeed`, `swingAmplitude`, `baseSpeedX`, `baseSpeedY`, `friction` and
`returnSpeed` unchanged — only `x`, `y`, `vx`, `vy`, the swing phase and
opacity can move. -/
theorem update_fixed_fields (M : MathFns) (c : Canvas) (m : Mouse)
    (r : ResetRand) (p : Particle)
    (hno : (Particle.physics M (Particle.interact M m p)).y ≤ c.height + 10) :
    (Particle.update M c m r p).size = p.size ∧
    (Particle.update M c m r p).speedX = p.speedX ∧
    (Particle.update M c m r p).speedY = p.speedY ∧
    (Particle.update M c m r p).swingSpeed = p.swingSpeed ∧
    (Particle.update M c m r p).swingAmplitude = p.swingAmplitude ∧
    (Particle.update M c m r p).baseSpeedX = p.baseSpeedX ∧
    (Particle.update M c m r p).baseSpeedY = p.baseSpeedY ∧
    (Particle.update M c m r p).friction = p.friction ∧
    (Particle.update M c m r p).returnSpeed = p.returnSpeed := by
  have hupd : Particle.update M c m r p =
      Particle.wrap c (Particle.physics M (Particle.interact M m p)) := by
    rw [Particle.update_eq, Particle.boundary_eq, if_neg (not_lt.mpr hno)]
  rw [hupd]
  obtain ⟨-, -, h3, h4, h5, -, h7, h8, h9, h10, h11, h12⟩ :=
    Particle.interact_preserves M m p
  exact ⟨h3, h4, h5, h7, h8, h9, h10, h11, h12⟩

/-- Witness for C9 at a concrete particle that stays above the bottom
boundary. -/
theorem update_fixed_fields_witness :
    (Particle.update (constMath 0 0) ⟨100, 100⟩ ⟨none, none, 150⟩
        ⟨0, 0, 0, 0, 0, 0, 0, 0, 0⟩ (default : Particle)).size =
      (default : Particle).size ∧
    (Particle.update (constMath 0 0) ⟨100, 100⟩ ⟨none, none, 150⟩
        ⟨0, 0, 0, 0, 0, 0, 0, 0, 0⟩ (default : Particle)).speedX =
      (default : Particle).speedX ∧
    (Particle.update (constMath 0 0) ⟨100, 100⟩ ⟨none, none, 150⟩
        ⟨0, 0, 0, 0, 0, 0, 0, 0, 0⟩ (default : Particle)).speedY =
      (default : Particle).speedY ∧
    (Particle.update (constMath 0 0) ⟨100, 100⟩ ⟨none, none, 150⟩
        ⟨0, 0, 0, 0, 0, 0, 0, 0, 0⟩ (default : Particle)).swingSpeed =
      (default : Particle).swingSpeed ∧
    (Particle.update (constMath 0 0) ⟨100, 100⟩ ⟨none, none, 150⟩
        ⟨0, 0, 0, 0, 0, 0, 0, 0, 0⟩ (default : Particle)).swingAmplitude =
      (default : Particle).swingAmplitude ∧
    (Particle.update (constMath 0 0) ⟨100, 100⟩ ⟨none, none, 150⟩
        ⟨0, 0, 0, 0, 0, 0, 0, 0, 0⟩ (default : Particle)).baseSpeedX =
      (default : Particle).baseSpeedX ∧
    (Particle.update (constMath 0 0) ⟨100, 100⟩ ⟨none, none, 150⟩
        ⟨0, 0, 0, 0, 0, 0, 0, 0, 0⟩ (default : Particle)).baseSpeedY =
      (default : Particle).baseSpeedY ∧
    (Particle.update (constMath 0 0) ⟨100, 100⟩ ⟨none, none, 150⟩
        ⟨0, 0, 0, 0, 0, 0, 0, 0, 0⟩ (default : Particle)).friction =
      (default : Particle).friction ∧
    (Particle.update (constMath 0 0) ⟨100, 100⟩ ⟨none, none, 150⟩
        ⟨0, 0, 0, 0, 0, 0, 0, 0, 0⟩ (default : Particle)).returnSpeed =
      (default : Particle).returnSpeed :=
  update_fixed_fields (constMath 0 0) ⟨100, 100⟩ ⟨none, none, 150⟩
    ⟨0, 0, 0, 0, 0, 0, 0, 0, 0⟩ (default : Particle)
    (by norm_num [Particle.physics_y, Particle.interact, default,
      instInhabitedParticle])

/-! ### C10: the touchmove handler -/

/-- C10.  A touch-move with an empty touch list leaves the Pointer Tracker
completely unchanged; a touch-move with at least one touch overwrites the
tracked point with the first touch's coordinates. -/
theorem touchmove_first_touch_only (m : Mouse) :
    touchmoveHandler m [] = m ∧
    ∀ (t : ℚ × ℚ) (ts : List (ℚ × ℚ)),
      touchmoveHandler m (t :: ts) =
        { m with x := some t.1, y := some t.2 } :=
  ⟨rfl, fun _ _ => rfl⟩
